import Mathlib

/-!
Verification of the terragrunt CLI command-execution pipeline (`cli/cli_app.go`)
against its natural-language specification.

The Go code is shallowly embedded: pure helpers become Lean functions; the
mutable `*TerragruntOptions` objects threaded through the pipeline are modelled
by an explicit heap (`Store`) of option records addressed by numeric ids, so
that aliasing and clone-independence are real, provable facts rather than
artifacts of a pure embedding.  External collaborators (remote-state backend,
engine process invocation, extra-argument filtering, the filesystem) are
oracles collected in an `Env` record.  The mutual recursion
`runTerragruntWithConfig -> prepareNonInitCommand -> runTerraformInit ->
runTerragruntWithConfig` is made total with a fuel parameter; running out of
fuel yields the distinguished error `TgError.outOfFuel`.
-/

namespace Terragrunt

/-- Command-name constant `CMD_INIT` from cli_app.go. -/
def CMD_INIT : String := "init"

/-- Command-name constant `CMD_PLAN_ALL`. -/
def CMD_PLAN_ALL : String := "plan-all"

/-- Command-name constant `CMD_APPLY_ALL`. -/
def CMD_APPLY_ALL : String := "apply-all"

/-- Command-name constant `CMD_DESTROY_ALL`. -/
def CMD_DESTROY_ALL : String := "destroy-all"

/-- Command-name constant `CMD_OUTPUT_ALL`. -/
def CMD_OUTPUT_ALL : String := "output-all"

/-- Command-name constant `CMD_VALIDATE_ALL`. -/
def CMD_VALIDATE_ALL : String := "validate-all"

/-- Deprecated command-name constant `CMD_SPIN_UP`. -/
def CMD_SPIN_UP : String := "spin-up"

/-- Deprecated command-name constant `CMD_TEAR_DOWN`. -/
def CMD_TEAR_DOWN : String := "tear-down"

/-- `MULTI_MODULE_COMMANDS` from cli_app.go. -/
def MULTI_MODULE_COMMANDS : List String :=
  [CMD_APPLY_ALL, CMD_DESTROY_ALL, CMD_OUTPUT_ALL, CMD_PLAN_ALL, CMD_VALIDATE_ALL]

/-- `DEPRECATED_COMMANDS` from cli_app.go: a map of deprecated commands to the
commands that replace them, modelled as an association list. -/
def DEPRECATED_COMMANDS : List (String × String) :=
  [(CMD_SPIN_UP, CMD_APPLY_ALL), (CMD_TEAR_DOWN, CMD_DESTROY_ALL)]

/-- `TERRAFORM_COMMANDS_THAT_USE_STATE` from cli_app.go. -/
def TERRAFORM_COMMANDS_THAT_USE_STATE : List String :=
  ["init", "apply", "destroy", "env", "import", "graph", "output", "plan",
   "push", "refresh", "show", "taint", "untaint", "validate", "force-unlock", "state"]

/-- `TERRAFORM_COMMANDS_THAT_DO_NOT_NEED_INIT` from cli_app.go. -/
def TERRAFORM_COMMANDS_THAT_DO_NOT_NEED_INIT : List String :=
  ["version"]

/-- Engine version numbers, modelling the external `hashicorp/go-version`
collaborator minimally: three numeric segments compared lexicographically
(sufficient for the versions the pipeline compares, such as 0.9.5 / 0.10.0). -/
structure GoVersion where
  major : Nat
  minor : Nat
  patch : Nat
deriving DecidableEq, Repr

/-- `LessThan` on go-version values: lexicographic segment comparison. -/
def GoVersion.lessThan (a b : GoVersion) : Bool :=
  (a.major < b.major) ||
    (a.major = b.major &&
      ((a.minor < b.minor) || (a.minor = b.minor && a.patch < b.patch)))

/-- The version threshold `v0.10.0` parsed at cli_app.go:408 (parsing a fixed
literal cannot fail). -/
def v0_10_0 : GoVersion := ⟨0, 10, 0⟩

/-- The `TerraformSource` descriptor consumed by `runTerraformInit`: canonical
source URL (already rendered to a string, as `CanonicalSourceURL.String()`
does), download directory and override working directory. -/
structure TerraformSource where
  canonicalSourceURL : String
  downloadDir : String
  workingDir : String
deriving DecidableEq, Repr

/-- The fields of `options.TerragruntOptions` that the pipeline under
verification reads or writes. -/
structure TerragruntOptions where
  terraformCliArgs : List String
  workingDir : String
  terragruntConfigPath : String
  autoInit : Bool
  nonInteractive : Bool
  iamRole : String
  envVars : List (String × String)
  writer : Nat
  errWriter : Nat
  terraformVersion : GoVersion
deriving DecidableEq, Repr

/-- The `remote.RemoteState` configuration object; the pipeline only reads its
backend type, all behaviour is delegated to oracles in `Env`. -/
structure RemoteState where
  backend : String
deriving DecidableEq, Repr

/-- The `terraform` block of the config, as far as the pipeline consults it:
its list of extra-argument entries (only emptiness is tested by the code; the
applicable arguments themselves come from the external filter oracle). -/
structure TerraformBlock where
  extraArgs : List String
deriving DecidableEq, Repr

/-- The fields of `config.TerragruntConfig` that the pipeline consults. -/
structure TerragruntConfig where
  remoteState : Option RemoteState
  terraform : Option TerraformBlock
deriving DecidableEq, Repr

/-- A source file in the working tree, for the text-scanning (grep) oracle:
path relative to the working directory, plus content. -/
structure SourceFile where
  relPath : String
  content : String
deriving DecidableEq, Repr

/-- Structured error values produced by the pipeline (cli_app.go custom error
types, plus `goError` for errors propagated from external collaborators and
`outOfFuel` for the fuel bound of the embedding). `errors.WithStackTrace` only
annotates an error with a trace and is modelled as the identity. -/
inductive TgError where
  | argumentNotAllowed (argument : String) (message : String)
  | initNeededButDisabled (message : String)
  | backendNotDefined (configPath : String) (workingDir : String) (backendType : String)
  | unrecognizedCommand (command : String)
  | goError (message : String)
  | outOfFuel
deriving DecidableEq, Repr

/-- Observable events emitted by the pipeline: engine sub-process invocations,
log lines, interactive prompts, and stack-destroy calls. -/
inductive Event where
  | engineRun (args : List String)
  | log (message : String)
  | prompt (message : String)
  | stackDestroy
deriving DecidableEq, Repr

/-- Modelled from the spec: the external collaborators (ConfigLoader aside,
which is upstream of the functions verified here) as pure oracles.
`fileExists` is `util.FileExists`; `files` gives the source tree under a
working directory for the text scanner (`util.Grep`, whose read errors are not
modelled); `rsNeedsInit` / `rsInitialize` / `rsToInitArgs` are the
RemoteStateSpec contract; `runTerraform` is the engine invocation outcome
(`shell.RunTerraformCommand`), a `String` being the error message of a failed
run; `filterExtraArgs` is the external extra-argument filter
(`filterTerraformExtraArgs`). -/
structure Env where
  fileExists : String → Bool
  files : String → List SourceFile
  rsNeedsInit : RemoteState → TerragruntOptions → Except String Bool
  rsInitialize : RemoteState → TerragruntOptions → Option String
  rsToInitArgs : RemoteState → List String
  runTerraform : TerragruntOptions → List String → Option String
  filterExtraArgs : TerragruntOptions → TerragruntConfig → List String

/-- Modelled from the spec: `util.JoinPath` joins two path segments with a
forward slash. -/
def joinPath (a b : String) : String := a ++ "/" ++ b

/-- Modelled from the spec: `firstArg` (helper from the cli package, not in
the provided excerpt) returns the command token, i.e. the first forwarded
argument, or the empty string when there are none. -/
def firstArg : List String → String
  | [] => ""
  | a :: _ => a

/-- Modelled from the spec: `TerragruntOptions.InsertTerraformCliArgs` splices
the given arguments into the forwarded list after the command token, before
the remaining arguments. -/
def insertTerraformCliArgs (opts : TerragruntOptions) (newArgs : List String) :
    TerragruntOptions :=
  { opts with
    terraformCliArgs :=
      match opts.terraformCliArgs with
      | [] => newArgs
      | cmd :: rest => cmd :: (newArgs ++ rest) }

/-- Modelled from the spec: `TerragruntOptions.AppendTerraformCliArgs` appends
the given arguments at the end of the forwarded list. -/
def appendTerraformCliArgs (opts : TerragruntOptions) (newArgs : List String) :
    TerragruntOptions :=
  { opts with terraformCliArgs := opts.terraformCliArgs ++ newArgs }

/-- Modelled from the spec: `TerragruntOptions.Clone` produces an independent
copy of the options record with the config path replaced by the given one.
Independence of the copy is captured by allocating the clone at a fresh heap
id (see `Store.alloc`). -/
def cloneOpts (opts : TerragruntOptions) (configPath : String) : TerragruntOptions :=
  { opts with terragruntConfigPath := configPath }

/-- `checkDeprecated` (cli_app.go:181): rewrite a deprecated command token to
its replacement, otherwise return the token unchanged.  The one-line logger
notice printed for deprecated tokens is a side channel not modelled here. -/
def checkDeprecated (command : String) : String :=
  match DEPRECATED_COMMANDS.lookup command with
  | some newCommand => newCommand
  | none => command

/-- `isMultiModuleCommand` (cli_app.go:452). -/
def isMultiModuleCommand (command : String) : Bool :=
  MULTI_MODULE_COMMANDS.contains command

/-- Message of the first `ArgumentNotAllowed` in `verifySourceDownloadArguments`. -/
def fromModuleNotAllowedMsg : String :=
  "Option not allowed: %s.  Terragrunt will handle setting -from-module automatically."

/-- Message of the second `ArgumentNotAllowed` in `verifySourceDownloadArguments`. -/
def dirArgNotAllowedMsg : String :=
  "Argument not allowed: %s.  Terragrunt will handle setting the module source and DIR arguments automatically."

/-- Substring containment on character lists (`strings.Contains`). -/
def hasSublist (needle : List Char) : List Char → Bool
  | [] => needle.isEmpty
  | c :: rest => needle.isPrefixOf (c :: rest) || hasSublist needle rest

/-- `strings.Contains` on strings. -/
def strContains (hay needle : String) : Bool :=
  hasSublist needle.data hay.data

/-- Suffix test on strings (filename-glob matching), at the character-list
level. -/
def strEndsWith (s suffix : String) : Bool :=
  suffix.data.isSuffixOf s.data

/-- The per-argument checks of the loop in `verifySourceDownloadArguments`
(cli_app.go:431-446), applied to the arguments after the command token; the
first offending argument produces the error. -/
def checkForwardedArgs : List String → Option TgError
  | [] => none
  | arg :: rest =>
    if strContains arg "-from-module" then
      some (.argumentNotAllowed arg fromModuleNotAllowedMsg)
    else if !("-".data.isPrefixOf arg.data) then
      some (.argumentNotAllowed arg dirArgNotAllowedMsg)
    else
      checkForwardedArgs rest

/-- `verifySourceDownloadArguments` (cli_app.go:427): returns an error iff
`allowSourceDownload` is false and the forwarded arguments after the command
token contain a `-from-module` reference or a bare positional argument.
`none` models the nil error. -/
def verifySourceDownloadArguments (allowSourceDownload : Bool)
    (terragruntOptions : TerragruntOptions) : Option TgError :=
  if allowSourceDownload || terragruntOptions.terraformCliArgs.length ≤ 1 then
    none
  else
    checkForwardedArgs terragruntOptions.terraformCliArgs.tail

/-- Blank characters, the POSIX class `[[:blank:]]` used by the backend and
module regexes. -/
def isBlankChar (c : Char) : Bool := c = ' ' || c = '\t'

/-- Whitespace characters, the POSIX class `[[:space:]]` used by the JSON
backend regex. -/
def isSpaceChar (c : Char) : Bool :=
  c = ' ' || c = '\t' || c = '\n' || c = '\r' || c = '\x0b' || c = '\x0c'

/-- The characters of a double-quoted name: `"b"`. -/
def quotedName (b : List Char) : List Char := '"' :: (b ++ ['"'])

/-- Matcher for the tail `[[:blank:]]+"b"` of the native backend regex: one or
more blank characters followed by the quoted name. -/
def afterBlanks (b : List Char) : List Char → Bool
  | [] => false
  | c :: rest => isBlankChar c && ((quotedName b).isPrefixOf rest || afterBlanks b rest)

/-- Shallow model of a search with the regex `backend[[:blank:]]+"b"`
(cli_app.go:301) over a string: some position starts with the literal
`backend`, then one or more blanks, then the quoted backend type.  The model
treats the interpolated backend type literally, which agrees with the compiled
regex for backend names free of regex metacharacters. -/
def matchNativeBackend (b : List Char) : List Char → Bool
  | [] => false
  | c :: rest =>
    ("backend".data.isPrefixOf (c :: rest) && afterBlanks b (List.drop 7 (c :: rest)))
      || matchNativeBackend b rest

/-- Matcher for the tail `[[:space:]]*"b"` of the JSON backend regex: zero or
more whitespace characters followed by the quoted name. -/
def afterSpacesQuoted (b : List Char) : List Char → Bool
  | [] => false
  | c :: rest =>
    (quotedName b).isPrefixOf (c :: rest) || (isSpaceChar c && afterSpacesQuoted b rest)

/-- Matcher for the tail starting at the opening brace of the JSON backend
regex: zero or more whitespace characters, the brace, then
`afterSpacesQuoted`. -/
def afterSpacesBrace (b : List Char) : List Char → Bool
  | [] => false
  | c :: rest =>
    (c = '\x7b' && afterSpacesQuoted b rest) || (isSpaceChar c && afterSpacesBrace b rest)

/-- Shallow model of a search with the regex
`(?m)"backend":[[:space:]]*\x7b[[:space:]]*"b"` (cli_app.go:314) over a
string. -/
def matchJsonBackend (b : List Char) : List Char → Bool
  | [] => false
  | c :: rest =>
    ("\"backend\":".data.isPrefixOf (c :: rest) && afterSpacesBrace b (List.drop 10 (c :: rest)))
      || matchJsonBackend b rest

/-- Matcher for the tail `[[:blank:]]+".+"` of `MODULE_REGEX`: one or more
blanks, a quote, at least one non-newline character, then a closing quote with
no newline in between (Go regexp `.` does not match newlines). -/
def moduleQuoteRun : List Char → Bool
  | [] => false
  | c :: rest => c = '"' || (!(c = '\n') && moduleQuoteRun rest)

/-- The quoted, non-empty module name part `".+"` of `MODULE_REGEX`. -/
def moduleQuotedName : List Char → Bool
  | [] => false
  | c :: rest => c = '"' && (match rest with
      | [] => false
      | d :: rest2 => !(d = '\n') && moduleQuoteRun rest2)

/-- Blanks then quoted module name, for `MODULE_REGEX`. -/
def moduleAfterBlanks : List Char → Bool
  | [] => false
  | c :: rest => isBlankChar c && (moduleQuotedName rest || moduleAfterBlanks rest)

/-- Shallow model of a search with `MODULE_REGEX` = `module[[:blank:]]+".+"`
(cli_app.go:121) over a string. -/
def matchModuleBlock : List Char → Bool
  | [] => false
  | c :: rest =>
    ("module".data.isPrefixOf (c :: rest) && moduleAfterBlanks (List.drop 6 (c :: rest)))
      || matchModuleBlock rest

/-- Modelled from the spec: the text scanner (`util.Grep`) applied to the glob
`workingDir/**/*.tf` with the native backend regex: some `.tf` file at any
depth under the working directory matches. -/
def grepNativeBackend (env : Env) (workingDir : String) (backendType : String) : Bool :=
  (env.files workingDir).any (fun f =>
    strEndsWith f.relPath ".tf" && matchNativeBackend backendType.data f.content.data)

/-- Modelled from the spec: the text scanner applied to the glob
`workingDir/**/*.tf.json` with the JSON backend regex. -/
def grepJsonBackend (env : Env) (workingDir : String) (backendType : String) : Bool :=
  (env.files workingDir).any (fun f =>
    strEndsWith f.relPath ".tf.json" && matchJsonBackend backendType.data f.content.data)

/-- Modelled from the spec: the text scanner applied to the top-level glob
`workingDir/*.tf` with `MODULE_REGEX`: some `.tf` file directly in the
working directory (relative path without a slash) matches. -/
def grepModuleBlocks (env : Env) (workingDir : String) : Bool :=
  (env.files workingDir).any (fun f =>
    !(f.relPath.contains '/') && strEndsWith f.relPath ".tf" && matchModuleBlock f.content.data)

/-- `checkTerraformCodeDefinesBackend` (cli_app.go:300): nil if either the
native-syntax scan over `**/*.tf` or the JSON scan over `**/*.tf.json`
matches the backend type; otherwise a `BackendNotDefined` error carrying the
config path, working directory and backend type.  The regex-compile failure
branches (unreachable for metacharacter-free backend names) are not
modelled. -/
def checkTerraformCodeDefinesBackend (env : Env) (terragruntOptions : TerragruntOptions)
    (backendType : String) : Option TgError :=
  if grepNativeBackend env terragruntOptions.workingDir backendType then
    none
  else if grepJsonBackend env terragruntOptions.workingDir backendType then
    none
  else
    some (.backendNotDefined terragruntOptions.terragruntConfigPath
      terragruntOptions.workingDir backendType)

/-- `providersNeedInit` (cli_app.go:368): true iff the plugin-cache directory
`.terraform/plugins` under the working directory does not exist. -/
def providersNeedInit (env : Env) (terragruntOptions : TerragruntOptions) : Bool :=
  !(env.fileExists (joinPath terragruntOptions.workingDir ".terraform/plugins"))

/-- `modulesNeedInit` (cli_app.go:478): false if the downloaded-modules
directory exists, otherwise whether a top-level `.tf` file declares a module
block.  The I/O error path of the scan is not modelled (the scan oracle is pure),
so the Go `(bool, error)` collapses to `Bool`. -/
def modulesNeedInit (env : Env) (terragruntOptions : TerragruntOptions) : Bool :=
  if env.fileExists (joinPath terragruntOptions.workingDir ".terraform/modules") then
    false
  else
    grepModuleBlocks env terragruntOptions.workingDir

/-- `remoteStateNeedsInit` (cli_app.go:489): delegate to the remote-state
predicate only when remote state is configured and the command token uses
state; otherwise false. -/
def remoteStateNeedsInit (env : Env) (remoteState : Option RemoteState)
    (terragruntOptions : TerragruntOptions) : Except TgError Bool :=
  match remoteState with
  | some rs =>
    if TERRAFORM_COMMANDS_THAT_USE_STATE.contains (firstArg terragruntOptions.terraformCliArgs) then
      match env.rsNeedsInit rs terragruntOptions with
      | .ok v => .ok v
      | .error msg => .error (.goError msg)
    else
      .ok false
  | none => .ok false

/-- `needsInit` (cli_app.go:347): false immediately for commands in
`TERRAFORM_COMMANDS_THAT_DO_NOT_NEED_INIT`; then true if providers or modules
need init; otherwise the remote-state predicate decides. -/
def needsInit (env : Env) (terragruntOptions : TerragruntOptions)
    (terragruntConfig : TerragruntConfig) : Except TgError Bool :=
  if TERRAFORM_COMMANDS_THAT_DO_NOT_NEED_INIT.contains
      (firstArg terragruntOptions.terraformCliArgs) then
    .ok false
  else if providersNeedInit env terragruntOptions then
    .ok true
  else if modulesNeedInit env terragruntOptions then
    .ok true
  else
    remoteStateNeedsInit env terragruntConfig.remoteState terragruntOptions

/-- Heap of live `TerragruntOptions` objects: a total map from numeric ids to
records, plus the next fresh id.  Ids below `nextId` are the allocated
objects; Go pointer aliasing becomes id sharing. -/
structure Store where
  objs : Nat → TerragruntOptions
  nextId : Nat

/-- Dereference an options pointer. -/
def Store.get (s : Store) (i : Nat) : TerragruntOptions := s.objs i

/-- Overwrite the object at an id (a mutation through a pointer). -/
def Store.set (s : Store) (i : Nat) (o : TerragruntOptions) : Store :=
  { s with objs := fun j => if j = i then o else s.objs j }

/-- Allocate a fresh object, returning its id and the grown store. -/
def Store.alloc (s : Store) (o : TerragruntOptions) : Nat × Store :=
  (s.nextId,
    { objs := fun j => if j = s.nextId then o else s.objs j, nextId := s.nextId + 1 })

/-- Pipeline state: the options heap plus the trace of observable events, in
order of occurrence. -/
structure PState where
  store : Store
  events : List Event

/-- Append an event to the trace. -/
def PState.emit (ps : PState) (e : Event) : PState :=
  { ps with events := ps.events ++ [e] }

/-- Message of the `InitNeededButDisabled` error (cli_app.go:387). -/
def initNeededButDisabledMsg : String :=
  "Cannot continue because init is needed, but Auto-Init is disabled.  You must run \x27terragrunt init\x27 manually."

/-- `prepareInitCommand` (cli_app.go:271): verify source-download argument
safety, then, when remote state is configured, consult and possibly run its
initialization and splice the backend init arguments into the forwarded
list.  `RemoteState.Initialize` acts on external cloud resources only, so in
the model it contributes just its error outcome. -/
def prepareInitCommand (env : Env) (optsId : Nat) (terragruntConfig : TerragruntConfig)
    (allowSourceDownload : Bool) (ps : PState) : Except TgError Unit × PState :=
  match verifySourceDownloadArguments allowSourceDownload (ps.store.get optsId) with
  | some e => (.error e, ps)
  | none =>
    match terragruntConfig.remoteState with
    | none => (.ok (), ps)
    | some rs =>
      match remoteStateNeedsInit env (some rs) (ps.store.get optsId) with
      | .error e => (.error e, ps)
      | .ok stateNeedsInit =>
        let afterInit : Except TgError Unit :=
          if stateNeedsInit then
            match env.rsInitialize rs (ps.store.get optsId) with
            | some msg => .error (.goError msg)
            | none => .ok ()
          else .ok ()
        match afterInit with
        | .error e => (.error e, ps)
        | .ok _ =>
          (.ok (),
            { ps with
              store := ps.store.set optsId
                (insertTerraformCliArgs (ps.store.get optsId) (env.rsToInitArgs rs)) })

/-- `shell.RunTerraformCommand` call site (cli_app.go:264), modelled from the
spec as the engine-invocation oracle: emits the invocation event and maps the
failure message of the oracle to a `goError`. -/
def runEngine (env : Env) (optsId : Nat) (ps : PState) : Except TgError Unit × PState :=
  let opts := ps.store.get optsId
  let ps1 := ps.emit (.engineRun opts.terraformCliArgs)
  match env.runTerraform opts opts.terraformCliArgs with
  | some msg => (.error (.goError msg), ps1)
  | none => (.ok (), ps1)

/-- The options record of the init sub-invocation, as built by
`runTerraformInit` (cli_app.go:390-421) after the auto-init gate: a clone of
the caller with the forwarded list set to exactly the init command, the
working directory of the caller, output redirected to the error stream; when a
source descriptor is present, the working directory is overridden by the
one from the descriptor and the version-gated download arguments are appended (the
source URL bare below v0.10.0, as `-from-module=` at or above), followed by
the download directory.  The `os.MkdirAll` of the source working directory
acts only on the filesystem and is not modelled. -/
def initOptionsFor (caller : TerragruntOptions) (terraformSource : Option TerraformSource) :
    TerragruntOptions :=
  let o := cloneOpts caller caller.terragruntConfigPath
  let o := { o with terraformCliArgs := [CMD_INIT] }
  let o := { o with workingDir := caller.workingDir }
  let o := { o with writer := o.errWriter }
  match terraformSource with
  | none => o
  | some src =>
    let o := { o with workingDir := src.workingDir }
    let o :=
      if caller.terraformVersion.lessThan v0_10_0 then
        appendTerraformCliArgs o [src.canonicalSourceURL]
      else
        appendTerraformCliArgs o ["-from-module=" ++ src.canonicalSourceURL]
    appendTerraformCliArgs o [src.downloadDir]

/-- The extra-arguments step at the top of `runTerragruntWithConfig`
(cli_app.go:251-253): when the terraform block of the config declares a non-empty
extra-arguments list, splice the externally filtered applicable arguments
into the forwarded list. -/
def insertExtraArgsStep (env : Env) (optsId : Nat) (terragruntConfig : TerragruntConfig)
    (ps : PState) : PState :=
  match terragruntConfig.terraform with
  | some tf =>
    if 0 < tf.extraArgs.length then
      { ps with
        store := ps.store.set optsId
          (insertTerraformCliArgs (ps.store.get optsId)
            (env.filterExtraArgs (ps.store.get optsId) terragruntConfig)) }
    else ps
  | none => ps

mutual

/-- `runTerragruntWithConfig` (cli_app.go:248): splice applicable extra
arguments into the forwarded list, branch on whether the command token is the
init command (init preparation vs. auto-init decision), then delegate the
final argument list to the engine.  `fuel` bounds the recursion depth of the
embedding; exhausting it yields `TgError.outOfFuel`. -/
def runTerragruntWithConfig (env : Env) (fuel : Nat) (optsId : Nat)
    (terragruntConfig : TerragruntConfig) (allowSourceDownload : Bool) (ps : PState) :
    Except TgError Unit × PState :=
  match fuel with
  | 0 => (.error .outOfFuel, ps)
  | f + 1 =>
    let ps1 := insertExtraArgsStep env optsId terragruntConfig ps
    if firstArg (ps1.store.get optsId).terraformCliArgs = CMD_INIT then
      match prepareInitCommand env optsId terragruntConfig allowSourceDownload ps1 with
      | (.error e, ps2) => (.error e, ps2)
      | (.ok _, ps2) => runEngine env optsId ps2
    else
      match prepareNonInitCommand env f optsId terragruntConfig ps1 with
      | (.error e, ps2) => (.error e, ps2)
      | (.ok _, ps2) => runEngine env optsId ps2
termination_by (fuel, 0)

/-- `prepareNonInitCommand` (cli_app.go:332): consult the auto-init decision
and, when init is needed, run the auto-init sub-invocation (with no source
descriptor). -/
def prepareNonInitCommand (env : Env) (fuel : Nat) (optsId : Nat)
    (terragruntConfig : TerragruntConfig) (ps : PState) : Except TgError Unit × PState :=
  match needsInit env (ps.store.get optsId) terragruntConfig with
  | .error e => (.error e, ps)
  | .ok true => runTerraformInit env fuel optsId terragruntConfig none ps
  | .ok false => (.ok (), ps)
termination_by (fuel, 2)

/-- `runTerraformInit` (cli_app.go:383): refuse with `InitNeededButDisabled`
when the original command is not the init command and auto-init is disabled;
otherwise allocate the cloned, restricted init options (see `initOptionsFor`)
at a fresh id and re-enter `runTerragruntWithConfig` on the clone, permitting
source-download arguments exactly when a source descriptor is present. -/
def runTerraformInit (env : Env) (fuel : Nat) (optsId : Nat)
    (terragruntConfig : TerragruntConfig) (terraformSource : Option TerraformSource)
    (ps : PState) : Except TgError Unit × PState :=
  let caller := ps.store.get optsId
  if firstArg caller.terraformCliArgs ≠ CMD_INIT ∧ caller.autoInit = false then
    (.error (.initNeededButDisabled initNeededButDisabledMsg), ps)
  else
    let alloc := ps.store.alloc (initOptionsFor caller terraformSource)
    runTerragruntWithConfig env fuel alloc.1 terragruntConfig
      terraformSource.isSome { ps with store := alloc.2 }
termination_by (fuel, 1)

end

/-- The stack object returned by the external orchestrator
(`configstack.FindStackInSubfolders`); the pipeline only renders its
description. -/
structure Stack where
  description : String
deriving DecidableEq, Repr

/-- Modelled from the spec: the external collaborators of the multi-module
commands: the stack orchestrator lookup, the answer of the user to an interactive
prompt, and the stack Destroy outcome. -/
structure StackEnv where
  findStack : TerragruntOptions → Except String Stack
  userAnswer : Except String Bool
  stackDestroy : Stack → TerragruntOptions → Option String

/-- The confirmation message of `destroyAll` (cli_app.go:541). -/
def destroyAllWarningMsg : String :=
  "WARNING: Are you sure you want to run `terragrunt destroy` in each folder of the stack described above? There is no undo!"

/-- Modelled from the spec: `shell.PromptUserForYesNo` assumes "yes" without
prompting when non-interactive mode is set; otherwise it shows the prompt and
returns the answer of the user. -/
def promptUserForYesNo (answer : Except String Bool) (message : String)
    (terragruntOptions : TerragruntOptions) : Except String Bool × List Event :=
  if terragruntOptions.nonInteractive then
    (.ok true, [])
  else
    (answer, [.prompt message])

/-- `destroyAll` (cli_app.go:534): find the stack, log its description, ask
for confirmation with the destroy warning; on "yes" call Destroy on the stack,
on "no" return nil without destroying anything. -/
def destroyAll (senv : StackEnv) (terragruntOptions : TerragruntOptions) :
    Except TgError Unit × List Event :=
  match senv.findStack terragruntOptions with
  | .error msg => (.error (.goError msg), [])
  | .ok stack =>
    let logEvents : List Event := [.log stack.description]
    match promptUserForYesNo senv.userAnswer destroyAllWarningMsg terragruntOptions with
    | (.error msg, promptEvents) => (.error (.goError msg), logEvents ++ promptEvents)
    | (.ok true, promptEvents) =>
      match senv.stackDestroy stack terragruntOptions with
      | some msg => (.error (.goError msg), logEvents ++ promptEvents ++ [.stackDestroy])
      | none => (.ok (), logEvents ++ promptEvents ++ [.stackDestroy])
    | (.ok false, promptEvents) => (.ok (), logEvents ++ promptEvents)

/-! Concrete fixtures used to instantiate theorems on explicit inputs. -/

/-- A concrete options record with the given forwarded arguments (engine
version 0.9.5). -/
def sampleOpts (args : List String) : TerragruntOptions :=
  { terraformCliArgs := args
    workingDir := "/work"
    terragruntConfigPath := "/work/terraform.tfvars"
    autoInit := true
    nonInteractive := false
    iamRole := ""
    envVars := []
    writer := 1
    errWriter := 2
    terraformVersion := ⟨0, 9, 5⟩ }

/-- `sampleOpts` at engine version 0.10.0. -/
def sampleOpts10 (args : List String) : TerragruntOptions :=
  { sampleOpts args with terraformVersion := ⟨0, 10, 0⟩ }

/-- A concrete source descriptor. -/
def sampleSource : TerraformSource :=
  { canonicalSourceURL := "git::github.com/acme/infra//vpc"
    downloadDir := "/work/.terragrunt-download"
    workingDir := "/work/.terragrunt-download/vpc" }

/-- A concrete environment in which no file exists and the working tree is
empty; all remote-state and engine oracles succeed trivially. -/
def sampleEnvNoFiles : Env :=
  { fileExists := fun _ => false
    files := fun _ => []
    rsNeedsInit := fun _ _ => .ok false
    rsInitialize := fun _ _ => none
    rsToInitArgs := fun _ => []
    runTerraform := fun _ _ => none
    filterExtraArgs := fun _ _ => [] }

/-- A concrete environment whose working tree holds one terraform file with an
s3 backend block and one tf.json file with an s3 backend object. -/
def sampleEnvS3 : Env :=
  { sampleEnvNoFiles with
    files := fun _ =>
      [{ relPath := "main.tf"
         content := "terraform \x7b\n  backend \"s3\" \x7b\x7d\n\x7d\n" },
       { relPath := "other.tf.json"
         content := "\x7b\"terraform\": \x7b\"backend\":\x7b\"s3\": \x7b\x7d\x7d\x7d\x7d" }] }

/-- A concrete environment whose working tree holds only a tf.json file with
an s3 backend object. -/
def sampleEnvS3JsonOnly : Env :=
  { sampleEnvNoFiles with
    files := fun _ =>
      [{ relPath := "other.tf.json"
         content := "\x7b\"terraform\": \x7b\"backend\":\x7b\"s3\": \x7b\x7d\x7d\x7d\x7d" }] }

/-- A config with no remote state and no terraform block. -/
def sampleCfgEmpty : TerragruntConfig := { remoteState := none, terraform := none }

/-- A concrete stack environment: one stack, the user answers "no". -/
def sampleStackEnv : StackEnv :=
  { findStack := fun _ => .ok { description := "stack" }
    userAnswer := .ok false
    stackDestroy := fun _ _ => none }

/-- A concrete pipeline state holding one allocated options object (id 0). -/
def samplePState (o : TerragruntOptions) : PState :=
  { store := { objs := fun _ => o, nextId := 1 }, events := [] }

/-! Theorems. -/

/-- C9: `checkDeprecated` maps "spin-up" to "apply-all" and "tear-down" to
"destroy-all"; every other token is returned unchanged. -/
theorem checkDeprecated_spec :
    checkDeprecated CMD_SPIN_UP = CMD_APPLY_ALL ∧
    checkDeprecated CMD_TEAR_DOWN = CMD_DESTROY_ALL ∧
    ∀ c : String, c ≠ CMD_SPIN_UP → c ≠ CMD_TEAR_DOWN → checkDeprecated c = c := by
  refine ⟨by decide, by decide, ?_⟩
  intro c h1 h2
  simp only [checkDeprecated, DEPRECATED_COMMANDS, List.lookup]
  rw [beq_eq_false_iff_ne.mpr h1, beq_eq_false_iff_ne.mpr h2]

/-- Witness for C9 at the concrete token "plan". -/
theorem checkDeprecated_spec_witness :
    "plan" ≠ CMD_SPIN_UP ∧ "plan" ≠ CMD_TEAR_DOWN ∧ checkDeprecated "plan" = "plan" :=
  ⟨by decide, by decide, checkDeprecated_spec.2.2 "plan" (by decide) (by decide)⟩

/-- C1, counterexample: when the whole forwarded-argument list is the single
element "-from-module=x" (or "mydir"), that element is the command token, the
list has no arguments beyond it, and `verifySourceDownloadArguments` accepts
it (nil error) even though download is not permitted — the claim says both
lists are rejected. -/
theorem verifySourceDownloadArguments_bare_list_accepted :
    verifySourceDownloadArguments false (sampleOpts ["-from-module=x"]) = none ∧
    verifySourceDownloadArguments false (sampleOpts ["mydir"]) = none := by
  exact ⟨rfl, rfl⟩

/-- C1, amended: reading the two lists as the arguments following the command
token — when download is not permitted, a forwarded list carrying
"-from-module=x" after the command token is rejected with an
`ArgumentNotAllowed` error, and one carrying "mydir" after the command token
is rejected with an `ArgumentNotAllowed` error; when download is permitted,
both lists are accepted (nil error). -/
theorem verifySourceDownloadArguments_after_command_token :
    verifySourceDownloadArguments false (sampleOpts ["init", "-from-module=x"]) =
      some (.argumentNotAllowed "-from-module=x" fromModuleNotAllowedMsg) ∧
    verifySourceDownloadArguments false (sampleOpts ["init", "mydir"]) =
      some (.argumentNotAllowed "mydir" dirArgNotAllowedMsg) ∧
    verifySourceDownloadArguments true (sampleOpts ["init", "-from-module=x"]) = none ∧
    verifySourceDownloadArguments true (sampleOpts ["init", "mydir"]) = none := by
  refine ⟨?_, ?_, rfl, rfl⟩ <;> rfl

/-- C2: `needsInit` returns false whenever the command token is "version",
for every environment, options and config — regardless of the state of the
providers/modules directories and of the remote-state configuration. -/
theorem needsInit_version_false (env : Env) (opts : TerragruntOptions)
    (cfg : TerragruntConfig) (h : firstArg opts.terraformCliArgs = "version") :
    needsInit env opts cfg = .ok false := by
  simp [needsInit, TERRAFORM_COMMANDS_THAT_DO_NOT_NEED_INIT, h]

/-- Witness for C2: the "version" command in an environment where every
directory is missing. -/
theorem needsInit_version_false_witness :
    firstArg (sampleOpts ["version"]).terraformCliArgs = "version" ∧
    needsInit sampleEnvNoFiles (sampleOpts ["version"]) sampleCfgEmpty = .ok false :=
  ⟨rfl, needsInit_version_false sampleEnvNoFiles (sampleOpts ["version"]) sampleCfgEmpty rfl⟩

/-- C3, counterexample: with the command token "version" and the plugin-cache
directory absent, `needsInit` returns false — the claim demands true for
every options record whose working directory lacks `.terraform/plugins`. -/
theorem needsInit_version_overrides_missing_providers :
    sampleEnvNoFiles.fileExists
      (joinPath (sampleOpts ["version"]).workingDir ".terraform/plugins") = false ∧
    needsInit sampleEnvNoFiles (sampleOpts ["version"]) sampleCfgEmpty = .ok false :=
  ⟨rfl, rfl⟩

/-- C3, amended: for every options record whose command token is not
"version" and whose working directory lacks the plugin-cache directory
`.terraform/plugins`, `needsInit` returns true, independent of whether the
downloaded-modules directory exists and of the remote-state configuration. -/
theorem needsInit_providers_missing (env : Env) (opts : TerragruntOptions)
    (cfg : TerragruntConfig) (h1 : firstArg opts.terraformCliArgs ≠ "version")
    (h2 : env.fileExists (joinPath opts.workingDir ".terraform/plugins") = false) :
    needsInit env opts cfg = .ok true := by
  simp [needsInit, TERRAFORM_COMMANDS_THAT_DO_NOT_NEED_INIT, h1, providersNeedInit, h2]

/-- Witness for C3 (amended) at the "apply" command with all directories
missing. -/
theorem needsInit_providers_missing_witness :
    firstArg (sampleOpts ["apply"]).terraformCliArgs ≠ "version" ∧
    sampleEnvNoFiles.fileExists
      (joinPath (sampleOpts ["apply"]).workingDir ".terraform/plugins") = false ∧
    needsInit sampleEnvNoFiles (sampleOpts ["apply"]) sampleCfgEmpty = .ok true :=
  ⟨by decide, rfl,
    needsInit_providers_missing sampleEnvNoFiles (sampleOpts ["apply"]) sampleCfgEmpty
      (by decide) rfl⟩

/-- C4: the init sub-invocation built by `runTerraformInit` for a present
source descriptor carries, after the init command token, the canonical source
URL — bare when the resolved engine version is below v0.10.0, as
`-from-module=<url>` at or above v0.10.0 — followed in both cases by the
download directory as the final argument, exactly once. -/
theorem initOptionsFor_version_gated_download_args (caller : TerragruntOptions)
    (src : TerraformSource) :
    (caller.terraformVersion.lessThan v0_10_0 = true →
      (initOptionsFor caller (some src)).terraformCliArgs =
        [CMD_INIT, src.canonicalSourceURL, src.downloadDir]) ∧
    (caller.terraformVersion.lessThan v0_10_0 = false →
      (initOptionsFor caller (some src)).terraformCliArgs =
        [CMD_INIT, "-from-module=" ++ src.canonicalSourceURL, src.downloadDir]) := by
  constructor <;> intro h <;>
    simp [initOptionsFor, cloneOpts, appendTerraformCliArgs, h]

/-- Witness for C4 at engine versions 0.9.5 (below the threshold) and 0.10.0
(at the threshold). -/
theorem initOptionsFor_version_gated_download_args_witness :
    ((sampleOpts ["apply"]).terraformVersion.lessThan v0_10_0 = true ∧
      (initOptionsFor (sampleOpts ["apply"]) (some sampleSource)).terraformCliArgs =
        [CMD_INIT, sampleSource.canonicalSourceURL, sampleSource.downloadDir]) ∧
    ((sampleOpts10 ["apply"]).terraformVersion.lessThan v0_10_0 = false ∧
      (initOptionsFor (sampleOpts10 ["apply"]) (some sampleSource)).terraformCliArgs =
        [CMD_INIT, "-from-module=" ++ sampleSource.canonicalSourceURL,
          sampleSource.downloadDir]) :=
  ⟨⟨by decide,
      (initOptionsFor_version_gated_download_args (sampleOpts ["apply"]) sampleSource).1
        (by decide)⟩,
    ⟨by decide,
      (initOptionsFor_version_gated_download_args (sampleOpts10 ["apply"]) sampleSource).2
        (by decide)⟩⟩

/-- C8: running `destroy-all` with non-interactive mode off shows the
confirmation prompt carrying the destroy warning text (after the stack
description is logged); when the user answers "no", no stack Destroy call is
made (the event trace ends at the prompt) and the result is the nil error. -/
theorem destroyAll_no_confirmation_noop (senv : StackEnv) (opts : TerragruntOptions)
    (st : Stack) (h1 : opts.nonInteractive = false)
    (h2 : senv.findStack opts = .ok st) (h3 : senv.userAnswer = .ok false) :
    destroyAll senv opts =
      (.ok (), [Event.log st.description, Event.prompt destroyAllWarningMsg]) := by
  simp [destroyAll, promptUserForYesNo, h1, h2, h3]

/-- Witness for C8 at a concrete stack environment where the user answers
"no". -/
theorem destroyAll_no_confirmation_noop_witness :
    (sampleOpts ["destroy-all"]).nonInteractive = false ∧
    sampleStackEnv.findStack (sampleOpts ["destroy-all"]) = .ok { description := "stack" } ∧
    sampleStackEnv.userAnswer = .ok false ∧
    destroyAll sampleStackEnv (sampleOpts ["destroy-all"]) =
      (.ok (), [Event.log "stack", Event.prompt destroyAllWarningMsg]) :=
  ⟨rfl, rfl, rfl,
    destroyAll_no_confirmation_noop sampleStackEnv (sampleOpts ["destroy-all"])
      { description := "stack" } rfl rfl rfl⟩


theorem isPrefixOf_append_self (l t : List Char) : l.isPrefixOf (l ++ t) = true := by
  simp [ List.isPrefixOf_iff_prefix]

theorem matchNativeBackend_append_left (b pre l : List Char)
    (h : matchNativeBackend b l = true) : matchNativeBackend b (pre ++ l) = true := by
  induction pre with
  | nil => simpa using h
  | cons c pre ih => simp [matchNativeBackend, ih]

theorem matchNativeBackend_here (b post : List Char) :
    matchNativeBackend b
      ('b' :: 'a' :: 'c' :: 'k' :: 'e' :: 'n' :: 'd' :: ' ' :: (quotedName b ++ post)) = true := by
  have h1 : "backend".data.isPrefixOf
      ('b' :: 'a' :: 'c' :: 'k' :: 'e' :: 'n' :: 'd' :: ' ' :: (quotedName b ++ post)) = true := by
    simp [show "backend".data = ['b','a','c','k','e','n','d'] from rfl,
      List.isPrefixOf_iff_prefix, List.cons_prefix_cons]
  have h2 : afterBlanks b (' ' :: (quotedName b ++ post)) = true := by
    simp [afterBlanks, isBlankChar, isPrefixOf_append_self]
  simp only [matchNativeBackend]
  simp [h1, h2]

theorem matchJsonBackend_append_left (b pre l : List Char)
    (h : matchJsonBackend b l = true) : matchJsonBackend b (pre ++ l) = true := by
  induction pre with
  | nil => simpa using h
  | cons c pre ih => simp [matchJsonBackend, ih]

theorem matchJsonBackend_here (b post : List Char) :
    matchJsonBackend b
      ('"' :: 'b' :: 'a' :: 'c' :: 'k' :: 'e' :: 'n' :: 'd' :: '"' :: ':' :: '\x7b'
        :: (quotedName b ++ post)) = true := by
  have h1 : "\"backend\":".data.isPrefixOf
      ('"' :: 'b' :: 'a' :: 'c' :: 'k' :: 'e' :: 'n' :: 'd' :: '"' :: ':' :: '\x7b'
        :: (quotedName b ++ post)) = true := by
    simp [show "\"backend\":".data = ['"','b','a','c','k','e','n','d','"',':'] from rfl,
      List.isPrefixOf_iff_prefix, List.cons_prefix_cons]
  have h0 : afterSpacesQuoted b (quotedName b ++ post) = true := by
    have e : quotedName b ++ post = '"' :: ((b ++ ['"']) ++ post) := rfl
    rw [e]
    simp only [afterSpacesQuoted]
    have e2 : ('"' : Char) :: ((b ++ ['"']) ++ post) = quotedName b ++ post := rfl
    rw [e2]
    simp [isPrefixOf_append_self]
  have h2 : afterSpacesBrace b ('\x7b' :: (quotedName b ++ post)) = true := by
    simp [afterSpacesBrace, h0]
  simp only [matchJsonBackend]
  simp [h1, h2]

theorem data_of_native_block (pre B post : String) :
    (pre ++ "backend \"" ++ B ++ "\"" ++ post).data =
      pre.data ++ ('b' :: 'a' :: 'c' :: 'k' :: 'e' :: 'n' :: 'd' :: ' '
        :: (quotedName B.data ++ post.data)) := by
  simp [String.data_append, quotedName,
    show "backend \"".data = ['b','a','c','k','e','n','d',' ','"'] from rfl,
    show "\"".data = ['"'] from rfl]

theorem data_of_json_block (pre B post : String) :
    (pre ++ "\"backend\":\x7b\"" ++ B ++ "\"" ++ post).data =
      pre.data ++ ('"' :: 'b' :: 'a' :: 'c' :: 'k' :: 'e' :: 'n' :: 'd' :: '"' :: ':' :: '\x7b'
        :: (quotedName B.data ++ post.data)) := by
  simp [String.data_append, quotedName,
    show "\"backend\":\x7b\"".data = ['"','b','a','c','k','e','n','d','"',':','\x7b','"'] from rfl,
    show "\"".data = ['"'] from rfl]

/-- C5: for every backend type (taken literally, as the compiled pattern does
for metacharacter-free type names): a working tree containing a literal
native-syntax backend declaration for that type in a `.tf` file, or the
JSON-object equivalent in a `.tf.json` file, passes
`checkTerraformCodeDefinesBackend` (nil error); a tree in which no file
matches either backend pattern for that type — in particular one whose only
backend declarations name a different type — fails with a `BackendNotDefined`
error naming the type and carrying the config path and working directory. -/
theorem checkTerraformCodeDefinesBackend_spec (env : Env) (opts : TerragruntOptions)
    (B : String) :
    (∀ f pre post, f ∈ env.files opts.workingDir → strEndsWith f.relPath ".tf" = true →
        f.content = pre ++ "backend \"" ++ B ++ "\"" ++ post →
        checkTerraformCodeDefinesBackend env opts B = none) ∧
    (∀ f pre post, f ∈ env.files opts.workingDir → strEndsWith f.relPath ".tf.json" = true →
        f.content = pre ++ "\"backend\":\x7b\"" ++ B ++ "\"" ++ post →
        checkTerraformCodeDefinesBackend env opts B = none) ∧
    ((∀ f ∈ env.files opts.workingDir,
        matchNativeBackend B.data f.content.data = false ∧
        matchJsonBackend B.data f.content.data = false) →
      checkTerraformCodeDefinesBackend env opts B =
        some (.backendNotDefined opts.terragruntConfigPath opts.workingDir B)) := by
  refine ⟨?_, ?_, ?_⟩
  · intro f pre post hmem hext hcontent
    have hmatch : matchNativeBackend B.data f.content.data = true := by
      rw [hcontent, data_of_native_block]
      exact matchNativeBackend_append_left _ _ _ (matchNativeBackend_here _ _)
    have hgrep : grepNativeBackend env opts.workingDir B = true := by
      unfold grepNativeBackend
      rw [List.any_eq_true]
      exact ⟨f, hmem, by simp [hext, hmatch]⟩
    simp [checkTerraformCodeDefinesBackend, hgrep]
  · intro f pre post hmem hext hcontent
    have hmatch : matchJsonBackend B.data f.content.data = true := by
      rw [hcontent, data_of_json_block]
      exact matchJsonBackend_append_left _ _ _ (matchJsonBackend_here _ _)
    have hgrep : grepJsonBackend env opts.workingDir B = true := by
      unfold grepJsonBackend
      rw [List.any_eq_true]
      exact ⟨f, hmem, by simp [hext, hmatch]⟩
    cases hn : grepNativeBackend env opts.workingDir B <;>
      simp [checkTerraformCodeDefinesBackend, hn, hgrep]
  · intro h
    have hg1 : grepNativeBackend env opts.workingDir B = false := by
      unfold grepNativeBackend
      simp only [List.any_eq_false]
      intro f hf
      simp [(h f hf).1]
    have hg2 : grepJsonBackend env opts.workingDir B = false := by
      unfold grepJsonBackend
      simp only [List.any_eq_false]
      intro f hf
      simp [(h f hf).2]
    simp [checkTerraformCodeDefinesBackend, hg1, hg2]


/-- Witness for C5 at concrete working trees: a tree with a native `backend
"s3"` block and one with a JSON backend object are accepted for "s3"; the
first tree, whose only backend declarations name "s3", is rejected for "gcs"
with a `BackendNotDefined` naming "gcs" and carrying the config path and
working directory. -/
theorem checkTerraformCodeDefinesBackend_spec_witness :
    checkTerraformCodeDefinesBackend sampleEnvS3 (sampleOpts ["init"]) "s3" = none ∧
    checkTerraformCodeDefinesBackend sampleEnvS3JsonOnly (sampleOpts ["init"]) "s3" = none ∧
    checkTerraformCodeDefinesBackend sampleEnvS3 (sampleOpts ["init"]) "gcs" =
      some (.backendNotDefined "/work/terraform.tfvars" "/work" "gcs") :=
  ⟨(checkTerraformCodeDefinesBackend_spec sampleEnvS3 (sampleOpts ["init"]) "s3").1
      { relPath := "main.tf", content := "terraform \x7b\n  backend \"s3\" \x7b\x7d\n\x7d\n" }
      "terraform \x7b\n  " " \x7b\x7d\n\x7d\n" (by decide) (by decide) (by decide),
   (checkTerraformCodeDefinesBackend_spec sampleEnvS3JsonOnly (sampleOpts ["init"]) "s3").2.1
      { relPath := "other.tf.json"
        content := "\x7b\"terraform\": \x7b\"backend\":\x7b\"s3\": \x7b\x7d\x7d\x7d\x7d" }
      "\x7b\"terraform\": \x7b" ": \x7b\x7d\x7d\x7d\x7d" (by decide) (by decide) (by decide),
   (checkTerraformCodeDefinesBackend_spec sampleEnvS3 (sampleOpts ["init"]) "gcs").2.2
      (by decide)⟩

theorem Store.nextId_set (s : Store) (i : Nat) (o : TerragruntOptions) :
    (s.set i o).nextId = s.nextId := rfl

theorem Store.get_set_ne (s : Store) (i j : Nat) (o : TerragruntOptions) (h : j ≠ i) :
    (s.set i o).get j = s.get j := by
  simp [Store.set, Store.get, h]

theorem Store.get_alloc_ne (s : Store) (o : TerragruntOptions) (j : Nat)
    (h : j ≠ s.nextId) : (s.alloc o).2.get j = s.get j := by
  simp [Store.alloc, Store.get, h]

theorem Store.get_alloc_self (s : Store) (o : TerragruntOptions) :
    (s.alloc o).2.get (s.alloc o).1 = o := by
  simp [Store.alloc, Store.get]

theorem runEngine_store (env : Env) (i : Nat) (ps : PState) :
    ((runEngine env i ps).2).store = ps.store := by
  cases h : env.runTerraform (ps.store.get i) (ps.store.get i).terraformCliArgs <;>
    simp [runEngine, PState.emit, h]

theorem insertExtraArgsStep_nextId (env : Env) (i : Nat) (cfg : TerragruntConfig)
    (ps : PState) : (insertExtraArgsStep env i cfg ps).store.nextId = ps.store.nextId := by
  unfold insertExtraArgsStep
  split
  · split <;> rfl
  · rfl

theorem insertExtraArgsStep_get_ne (env : Env) (i : Nat) (cfg : TerragruntConfig)
    (ps : PState) (j : Nat) (h : j ≠ i) :
    (insertExtraArgsStep env i cfg ps).store.get j = ps.store.get j := by
  unfold insertExtraArgsStep
  split
  · split
    · exact Store.get_set_ne _ _ _ _ h
    · rfl
  · rfl

theorem prepareInitCommand_nextId (env : Env) (i : Nat) (cfg : TerragruntConfig)
    (b : Bool) (ps : PState) :
    ((prepareInitCommand env i cfg b ps).2).store.nextId = ps.store.nextId := by
  unfold prepareInitCommand
  repeat' split
  all_goals rfl

theorem prepareInitCommand_get_ne (env : Env) (i : Nat) (cfg : TerragruntConfig)
    (b : Bool) (ps : PState) (j : Nat) (h : j ≠ i) :
    ((prepareInitCommand env i cfg b ps).2).store.get j = ps.store.get j := by
  unfold prepareInitCommand
  repeat' split
  all_goals first
    | rfl
    | exact Store.get_set_ne _ _ _ _ h


theorem runTerragruntWithConfig_nextId_mono :
    ∀ fuel env i cfg b ps,
      ps.store.nextId ≤ ((runTerragruntWithConfig env fuel i cfg b ps).2).store.nextId := by
  intro fuel
  induction fuel with
  | zero =>
    intro env i cfg b ps
    simp [runTerragruntWithConfig]
  | succ f ih =>
    have hInit : ∀ env i cfg src ps,
        ps.store.nextId ≤ ((runTerraformInit env f i cfg src ps).2).store.nextId := by
      intro env i cfg src ps
      unfold runTerraformInit
      dsimp only
      split
      · exact le_refl _
      · refine le_trans ?_ (ih env _ cfg _ _)
        simp [Store.alloc]
    have hPNIC : ∀ env i cfg ps,
        ps.store.nextId ≤ ((prepareNonInitCommand env f i cfg ps).2).store.nextId := by
      intro env i cfg ps
      unfold prepareNonInitCommand
      split
      · exact le_refl _
      · exact hInit env i cfg none ps
      · exact le_refl _
    intro env i cfg b ps
    unfold runTerragruntWithConfig
    have h1 : (insertExtraArgsStep env i cfg ps).store.nextId = ps.store.nextId :=
      insertExtraArgsStep_nextId env i cfg ps
    dsimp only
    split
    · -- init branch
      split
      · next e ps2 heq =>
        dsimp only
        have h2 := prepareInitCommand_nextId env i cfg b (insertExtraArgsStep env i cfg ps)
        rw [heq] at h2
        simp at h2
        omega
      · next u ps2 heq =>
        have h2 := prepareInitCommand_nextId env i cfg b (insertExtraArgsStep env i cfg ps)
        rw [heq] at h2
        simp at h2
        have h3 := runEngine_store env i ps2
        rw [congrArg Store.nextId h3]
        omega
    · -- non-init branch
      split
      · next e ps2 heq =>
        dsimp only
        have h2 := hPNIC env i cfg (insertExtraArgsStep env i cfg ps)
        rw [heq] at h2
        simp at h2
        omega
      · next u ps2 heq =>
        have h2 := hPNIC env i cfg (insertExtraArgsStep env i cfg ps)
        rw [heq] at h2
        simp at h2
        have h3 := runEngine_store env i ps2
        rw [congrArg Store.nextId h3]
        omega


theorem runTerraformInit_nextId_mono (env : Env) (fuel i : Nat) (cfg : TerragruntConfig)
    (src : Option TerraformSource) (ps : PState) :
    ps.store.nextId ≤ ((runTerraformInit env fuel i cfg src ps).2).store.nextId := by
  unfold runTerraformInit
  dsimp only
  split
  · exact le_refl _
  · refine le_trans ?_ (runTerragruntWithConfig_nextId_mono fuel env _ cfg _ _)
    simp [Store.alloc]

theorem runTerragruntWithConfig_frame :
    ∀ fuel env i cfg b ps j, j < ps.store.nextId → j ≠ i →
      ((runTerragruntWithConfig env fuel i cfg b ps).2).store.get j = ps.store.get j := by
  intro fuel
  induction fuel with
  | zero =>
    intro env i cfg b ps j hj hne
    simp [runTerragruntWithConfig]
  | succ f ih =>
    have hInit : ∀ env i cfg src ps j, j < ps.store.nextId →
        ((runTerraformInit env f i cfg src ps).2).store.get j = ps.store.get j := by
      intro env i cfg src ps j hj
      unfold runTerraformInit
      dsimp only
      split
      · rfl
      · rw [ih env _ cfg _ _ j (by simp [Store.alloc]; omega) (by simp [Store.alloc]; omega)]
        exact Store.get_alloc_ne _ _ _ (by omega)
    have hPNIC : ∀ env i cfg ps j, j < ps.store.nextId →
        ((prepareNonInitCommand env f i cfg ps).2).store.get j = ps.store.get j := by
      intro env i cfg ps j hj
      unfold prepareNonInitCommand
      split
      · rfl
      · exact hInit env i cfg none ps j hj
      · rfl
    intro env i cfg b ps j hj hne
    unfold runTerragruntWithConfig
    have h1 : (insertExtraArgsStep env i cfg ps).store.get j = ps.store.get j :=
      insertExtraArgsStep_get_ne env i cfg ps j hne
    have h0 : (insertExtraArgsStep env i cfg ps).store.nextId = ps.store.nextId :=
      insertExtraArgsStep_nextId env i cfg ps
    dsimp only
    split
    · split
      · next e ps2 heq =>
        dsimp only
        have h2 := prepareInitCommand_get_ne env i cfg b (insertExtraArgsStep env i cfg ps) j hne
        rw [heq] at h2
        dsimp only at h2
        rw [h2, h1]
      · next u ps2 heq =>
        have h2 := prepareInitCommand_get_ne env i cfg b (insertExtraArgsStep env i cfg ps) j hne
        rw [heq] at h2
        dsimp only at h2
        have h3 := runEngine_store env i ps2
        show ((runEngine env i ps2).2).store.get j = ps.store.get j
        rw [congrArg (fun s => Store.get s j) h3, h2, h1]
    · split
      · next e ps2 heq =>
        dsimp only
        have h2 := hPNIC env i cfg (insertExtraArgsStep env i cfg ps) j (by omega)
        rw [heq] at h2
        dsimp only at h2
        rw [h2, h1]
      · next u ps2 heq =>
        have h2 := hPNIC env i cfg (insertExtraArgsStep env i cfg ps) j (by omega)
        rw [heq] at h2
        dsimp only at h2
        have h3 := runEngine_store env i ps2
        show ((runEngine env i ps2).2).store.get j = ps.store.get j
        rw [congrArg (fun s => Store.get s j) h3, h2, h1]

theorem runTerraformInit_preserves (env : Env) (fuel i : Nat) (cfg : TerragruntConfig)
    (src : Option TerraformSource) (ps : PState) (j : Nat) (hj : j < ps.store.nextId) :
    ((runTerraformInit env fuel i cfg src ps).2).store.get j = ps.store.get j := by
  unfold runTerraformInit
  dsimp only
  split
  · rfl
  · rw [runTerragruntWithConfig_frame fuel env _ cfg _ _ j
      (by simp [Store.alloc]; omega) (by simp [Store.alloc]; omega)]
    exact Store.get_alloc_ne _ _ _ (by omega)


theorem Store.get_set_self (s : Store) (i : Nat) (o : TerragruntOptions) :
    (s.set i o).get i = o := by
  simp [Store.set, Store.get]

/-- C6: `runTerraformInit` fails with the `InitNeededButDisabled` error and
leaves the pipeline state untouched (no clone allocated, no sub-invocation
constructed or run) exactly when the original command is not the init command
and the auto-init flag is disabled. -/
theorem runTerraformInit_disabled_iff (env : Env) (fuel i : Nat)
    (cfg : TerragruntConfig) (src : Option TerraformSource) (ps : PState) :
    runTerraformInit env fuel i cfg src ps =
      (.error (.initNeededButDisabled initNeededButDisabledMsg), ps) ↔
    (firstArg (ps.store.get i).terraformCliArgs ≠ CMD_INIT ∧
      (ps.store.get i).autoInit = false) := by
  constructor
  · intro heq
    by_contra hgate
    unfold runTerraformInit at heq
    dsimp only at heq
    rw [if_neg hgate] at heq
    have hsnd := congrArg Prod.snd heq
    dsimp only at hsnd
    have hm := runTerragruntWithConfig_nextId_mono fuel env
      (ps.store.alloc (initOptionsFor (ps.store.get i) src)).1 cfg src.isSome
      { ps with store := (ps.store.alloc (initOptionsFor (ps.store.get i) src)).2 }
    rw [hsnd] at hm
    simp [Store.alloc] at hm
  · intro h
    unfold runTerraformInit
    dsimp only
    rw [if_pos h]

/-- C7: all mutations of `runTerraformInit` hit only the freshly cloned
options object: the options record of the caller (its forwarded arguments, working
directory, stream handles and all other fields) is unchanged by the call,
while the clone starts from the record of the caller with the forwarded list set
to exactly the init command and its primary output stream redirected to the
error stream. -/
theorem runTerraformInit_clone_isolation (env : Env) (fuel i : Nat)
    (cfg : TerragruntConfig) (src : Option TerraformSource) (ps : PState)
    (h : i < ps.store.nextId) :
    ((runTerraformInit env fuel i cfg src ps).2).store.get i = ps.store.get i ∧
    (initOptionsFor (ps.store.get i) none).terraformCliArgs = [CMD_INIT] ∧
    (initOptionsFor (ps.store.get i) src).writer = (ps.store.get i).errWriter := by
  refine ⟨runTerraformInit_preserves env fuel i cfg src ps i h, rfl, ?_⟩
  cases src with
  | none => rfl
  | some s =>
    unfold initOptionsFor
    dsimp only
    split <;> rfl

/-- Witness for C7 at a concrete one-object heap and an "apply" caller. -/
theorem runTerraformInit_clone_isolation_witness :
    0 < (samplePState (sampleOpts ["apply"])).store.nextId ∧
    (((runTerraformInit sampleEnvNoFiles 3 0 sampleCfgEmpty none
        (samplePState (sampleOpts ["apply"]))).2).store.get 0 =
        (samplePState (sampleOpts ["apply"])).store.get 0 ∧
      (initOptionsFor ((samplePState (sampleOpts ["apply"])).store.get 0)
          none).terraformCliArgs = [CMD_INIT] ∧
      (initOptionsFor ((samplePState (sampleOpts ["apply"])).store.get 0) none).writer =
        ((samplePState (sampleOpts ["apply"])).store.get 0).errWriter) :=
  ⟨by decide,
    runTerraformInit_clone_isolation sampleEnvNoFiles 3 0 sampleCfgEmpty none
      (samplePState (sampleOpts ["apply"])) (by decide)⟩


theorem insertExtraArgsStep_firstArg_init (env : Env) (i : Nat) (cfg : TerragruntConfig)
    (ps : PState) (h : firstArg (ps.store.get i).terraformCliArgs = CMD_INIT) :
    firstArg ((insertExtraArgsStep env i cfg ps).store.get i).terraformCliArgs = CMD_INIT := by
  unfold insertExtraArgsStep
  split
  · split
    · rw [Store.get_set_self]
      cases hargs : (ps.store.get i).terraformCliArgs with
      | nil => rw [hargs] at h; exact absurd h (by decide)
      | cons a rest =>
        rw [hargs] at h
        simp [insertTerraformCliArgs, hargs, firstArg] at h ⊢
        exact h
    · exact h
  · exact h

theorem runTerragruntWithConfig_init_head_stable (env : Env) (i : Nat)
    (cfg : TerragruntConfig) (b : Bool) (ps : PState)
    (h : firstArg (ps.store.get i).terraformCliArgs = CMD_INIT) (f : Nat) :
    runTerragruntWithConfig env (f + 1) i cfg b ps =
      runTerragruntWithConfig env 1 i cfg b ps := by
  have h2 := insertExtraArgsStep_firstArg_init env i cfg ps h
  unfold runTerragruntWithConfig
  dsimp only
  rw [if_pos h2, if_pos h2]

theorem runTerraformInit_fuel_stable (env : Env) (i : Nat) (cfg : TerragruntConfig)
    (ps : PState) (f : Nat) :
    runTerraformInit env (f + 1) i cfg none ps = runTerraformInit env 1 i cfg none ps := by
  unfold runTerraformInit
  dsimp only
  split
  · rfl
  · apply runTerragruntWithConfig_init_head_stable
    show firstArg ((ps.store.alloc (initOptionsFor (ps.store.get i) none)).2.get
      (ps.store.alloc (initOptionsFor (ps.store.get i) none)).1).terraformCliArgs = CMD_INIT
    rw [Store.get_alloc_self]
    rfl

theorem prepareNonInitCommand_fuel_stable (env : Env) (i : Nat) (cfg : TerragruntConfig)
    (ps : PState) (f : Nat) :
    prepareNonInitCommand env (f + 1) i cfg ps = prepareNonInitCommand env 1 i cfg ps := by
  unfold prepareNonInitCommand
  split
  · rfl
  · exact runTerraformInit_fuel_stable env i cfg ps f
  · rfl

/-- C10: the mutual recursion has auto-init nesting depth at most one: the
sub-invocation constructed by `runTerraformInit` carries the init command as
its first forwarded argument, so the nested `runTerragruntWithConfig` always
takes the init branch and never re-enters `runTerraformInit` through
`prepareNonInitCommand`; consequently the outcome of the pipeline is already
attained at fuel 2 and is unchanged by any additional fuel. -/
theorem runTerragruntWithConfig_fuel_stable (env : Env) (n i : Nat)
    (cfg : TerragruntConfig) (b : Bool) (ps : PState) :
    (runTerragruntWithConfig env (n + 2) i cfg b ps =
      runTerragruntWithConfig env 2 i cfg b ps) ∧
    ∀ caller : TerragruntOptions,
      firstArg (initOptionsFor caller none).terraformCliArgs = CMD_INIT := by
  constructor
  · show runTerragruntWithConfig env ((n + 1) + 1) i cfg b ps =
      runTerragruntWithConfig env (1 + 1) i cfg b ps
    unfold runTerragruntWithConfig
    dsimp only
    split
    · rfl
    · rw [prepareNonInitCommand_fuel_stable env i cfg _ n]
  · intro caller
    rfl


end Terragrunt
